import Mathlib

/-!
Verification of the performance-monitor sampler module
(`lib/rust/ensogl/core/src/debug/monitor/sampler.rs`).

The Rust module works over `f64`.  We embed `f64` shallowly as the
inductive `F64`: a finite value is an exact rational (the divisors and
thresholds appearing in the module are exactly representable, and the
claims are stated modulo floating rounding), and the non-finite values
`+∞`, `-∞` and `NaN` are explicit constructors.  Comparisons follow the
IEEE-754 partial order used by Rust's comparison operators on `f64`:
every comparison involving `NaN` is `false`.  Signed zeros are collapsed to
the single rational `0`.
-/

/-- Shallow embedding of Rust `f64` values: exact rationals plus the
non-finite values. -/
inductive F64 where
  | finite (q : ℚ)
  | posInf
  | negInf
  | nan
deriving DecidableEq

namespace F64

/-- IEEE strict less-than (`<` on `f64`): false whenever `NaN` is involved. -/
def lt : F64 → F64 → Bool
  | .nan, _ => false
  | _, .nan => false
  | .finite a, .finite b => decide (a < b)
  | .finite _, .posInf => true
  | .finite _, .negInf => false
  | .negInf, .negInf => false
  | .negInf, _ => true
  | .posInf, _ => false

/-- IEEE less-or-equal (`<=` on `f64`): false whenever `NaN` is involved. -/
def le : F64 → F64 → Bool
  | .nan, _ => false
  | _, .nan => false
  | .finite a, .finite b => decide (a ≤ b)
  | .finite _, .posInf => true
  | .finite _, .negInf => false
  | .negInf, _ => true
  | .posInf, .posInf => true
  | .posInf, _ => false

/-- IEEE strict greater-than (`>` on `f64`). -/
def gt (a b : F64) : Bool := lt b a

/-- IEEE greater-or-equal (`>=` on `f64`). -/
def ge (a b : F64) : Bool := le b a

/-- IEEE division on the embedded values (exact on finite operands;
signed zeros are collapsed, so a finite value divided by zero is sent to
the infinity matching the numerator's sign, and `0 / 0` is `NaN`). -/
def div : F64 → F64 → F64
  | .nan, _ => .nan
  | _, .nan => .nan
  | .finite a, .finite b =>
      if b = 0 then (if a = 0 then .nan else if a > 0 then .posInf else .negInf)
      else .finite (a / b)
  | .posInf, .finite b => if b < 0 then .negInf else .posInf
  | .negInf, .finite b => if b < 0 then .posInf else .negInf
  | .finite _, .posInf => .finite 0
  | .finite _, .negInf => .finite 0
  | .posInf, _ => .nan
  | .negInf, _ => .nan

end F64

/-- `ValueCheck` from the source: values drawn in the monitor are
assigned a check `Correct`, `Warning` or `Error`. -/
inductive ValueCheck where
  | Correct
  | Warning
  | Error
deriving DecidableEq

/-- `impl Default for ValueCheck`: `Self::Correct`. -/
def ValueCheck.default : ValueCheck := .Correct

/-- `ValueCheck::from_threshold` from the source: construct the check by
comparing the provided value to two threshold values. -/
def ValueCheck.from_threshold (warn_threshold err_threshold value : F64) : ValueCheck :=
  if F64.gt warn_threshold err_threshold then
    if F64.ge value warn_threshold then ValueCheck.Correct
    else if F64.ge value err_threshold then ValueCheck.Warning
    else ValueCheck.Error
  else
    if F64.le value warn_threshold then ValueCheck.Correct
    else if F64.le value err_threshold then ValueCheck.Warning
    else ValueCheck.Error

/-- Characterisation of `from_threshold` on finite arguments, phrased
over the underlying rationals. -/
theorem from_threshold_finite (w e v : ℚ) :
    ValueCheck.from_threshold (.finite w) (.finite e) (.finite v) =
      (if e < w then
        (if w ≤ v then ValueCheck.Correct
         else if e ≤ v then ValueCheck.Warning else ValueCheck.Error)
      else
        (if v ≤ w then ValueCheck.Correct
         else if v ≤ e then ValueCheck.Warning else ValueCheck.Error)) := by
  simp [ValueCheck.from_threshold, F64.gt, F64.ge, F64.lt, F64.le]

/-- Claim C1: for finite thresholds and a finite value, if `w > e`
(ascending mode) the classifier returns `Correct` when `v ≥ w`,
`Warning` when `e ≤ v < w` and `Error` when `v < e`; otherwise
(`w ≤ e`, descending mode) it returns `Correct` when `v ≤ w`, `Warning`
when `w < v ≤ e` and `Error` when `v > e`. -/
theorem from_threshold_classification_law (w e v : ℚ) :
    (e < w →
      ((w ≤ v → ValueCheck.from_threshold (.finite w) (.finite e) (.finite v) = .Correct) ∧
       (e ≤ v → v < w →
         ValueCheck.from_threshold (.finite w) (.finite e) (.finite v) = .Warning) ∧
       (v < e → ValueCheck.from_threshold (.finite w) (.finite e) (.finite v) = .Error))) ∧
    (w ≤ e →
      ((v ≤ w → ValueCheck.from_threshold (.finite w) (.finite e) (.finite v) = .Correct) ∧
       (w < v → v ≤ e →
         ValueCheck.from_threshold (.finite w) (.finite e) (.finite v) = .Warning) ∧
       (e < v → ValueCheck.from_threshold (.finite w) (.finite e) (.finite v) = .Error))) := by
  simp only [from_threshold_finite]
  constructor
  · intro hwe
    refine ⟨fun h => ?_, fun h1 h2 => ?_, fun h => ?_⟩ <;> split_ifs <;>
      first | rfl | linarith
  · intro hwe
    refine ⟨fun h => ?_, fun h1 h2 => ?_, fun h => ?_⟩ <;> split_ifs <;>
      first | rfl | linarith

/-- Witness for C1: with the FPS thresholds `w = 55 > e = 25`, the value
`40` lies in the warning band and classifies as `Warning`. -/
theorem from_threshold_classification_law_witness :
    ValueCheck.from_threshold (.finite 55) (.finite 25) (.finite 40) = .Warning :=
  ((from_threshold_classification_law 55 25 40).1 (by norm_num)).2.1
    (by norm_num) (by norm_num)

/-- Counterexample to C2: with the ascending FPS thresholds
`warn = 55 > err = 25`, the non-finite value `+∞` satisfies
`+∞ ≥ warn_threshold` and the code classifies it as `Correct`, not
`Error`. -/
theorem from_threshold_posInf_not_error :
    ValueCheck.from_threshold (.finite 55) (.finite 25) .posInf = .Correct ∧
    ValueCheck.Correct ≠ ValueCheck.Error := by
  constructor
  · rfl
  · intro h
    exact ValueCheck.noConfusion h

/-- Claim C2 (amended): for finite thresholds `w, e`, a `NaN` value
always classifies as `Error`; `+∞` classifies as `Correct` in ascending
mode (`w > e`) and as `Error` in descending mode (`w ≤ e`); `-∞`
classifies as `Error` in ascending mode and as `Correct` in descending
mode. -/
theorem from_threshold_nonfinite (w e : ℚ) :
    ValueCheck.from_threshold (.finite w) (.finite e) .nan = .Error ∧
    (e < w →
      ValueCheck.from_threshold (.finite w) (.finite e) .posInf = .Correct ∧
      ValueCheck.from_threshold (.finite w) (.finite e) .negInf = .Error) ∧
    (w ≤ e →
      ValueCheck.from_threshold (.finite w) (.finite e) .posInf = .Error ∧
      ValueCheck.from_threshold (.finite w) (.finite e) .negInf = .Correct) := by
  refine ⟨?_, fun h => ?_, fun h => ?_⟩
  · simp [ValueCheck.from_threshold, F64.gt, F64.ge, F64.lt, F64.le]
  · simp [ValueCheck.from_threshold, F64.gt, F64.ge, F64.lt, F64.le, h]
  · have hw : ¬e < w := not_lt.mpr h
    simp [ValueCheck.from_threshold, F64.gt, F64.ge, F64.lt, F64.le, hw]

/-- Witness for the amended C2: at `w = 55, e = 25` (ascending) `NaN`
and `-∞` classify as `Error` while `+∞` classifies as `Correct`, and at
`w = 50, e = 100` (descending) `+∞` classifies as `Error`. -/
theorem from_threshold_nonfinite_witness :
    ValueCheck.from_threshold (.finite 55) (.finite 25) .nan = .Error ∧
    ValueCheck.from_threshold (.finite 55) (.finite 25) .negInf = .Error ∧
    ValueCheck.from_threshold (.finite 50) (.finite 100) .posInf = .Error :=
  ⟨(from_threshold_nonfinite 55 25).1,
   ((from_threshold_nonfinite 55 25).2.1 (by norm_num)).2,
   ((from_threshold_nonfinite 50 100).2.2 (by norm_num)).1⟩

/-- Claim C4: when both thresholds equal `w`, the descending branch
applies and the warning band is empty: every `v ≤ w` classifies as
`Correct`, every `v > w` (in particular `w + ε` for `ε > 0`) classifies
as `Error`, and no value classifies as `Warning`. -/
theorem from_threshold_equal_thresholds (w v : ℚ) :
    (v ≤ w → ValueCheck.from_threshold (.finite w) (.finite w) (.finite v) = .Correct) ∧
    (w < v → ValueCheck.from_threshold (.finite w) (.finite w) (.finite v) = .Error) ∧
    ValueCheck.from_threshold (.finite w) (.finite w) (.finite w) = .Correct ∧
    (∀ ε : ℚ, 0 < ε →
      ValueCheck.from_threshold (.finite w) (.finite w) (.finite (w + ε)) = .Error) ∧
    (∀ u : ℚ, ValueCheck.from_threshold (.finite w) (.finite w) (.finite u) ≠ .Warning) := by
  refine ⟨fun h => ?_, fun h => ?_, ?_, fun ε hε => ?_, fun u => ?_⟩ <;>
    rw [from_threshold_finite] <;> split_ifs <;>
      first | rfl | linarith | exact fun h => ValueCheck.noConfusion h

/-- Witness for C4: at `w = 7`, the value `7` classifies as `Correct`
and the value `7 + 1` classifies as `Error`. -/
theorem from_threshold_equal_thresholds_witness :
    ValueCheck.from_threshold (.finite 7) (.finite 7) (.finite 7) = .Correct ∧
    ValueCheck.from_threshold (.finite 7) (.finite 7) (.finite (7 + 1)) = .Error :=
  ⟨(from_threshold_equal_thresholds 7 7).1 (by norm_num),
   (from_threshold_equal_thresholds 7 7).2.2.2.1 1 (by norm_num)⟩

/-- `StatsData` from `crate::debug::stats` (the external statistics
snapshot consumed read-only by the samplers; its numeric fields are the
ones the sampler expressions read).  Frame timing fields are `f64` in
the source; memory usage and the object counts are machine integers
that the expressions cast with `as f64`, embedded here as `ℕ`;
`draw_calls` is the ordered list of textual draw-call descriptions. -/
structure StatsData where
  frame_time : F64
  fps : F64
  wasm_memory_usage : ℕ
  gpu_memory_usage : ℕ
  draw_calls : List String
  buffer_count : ℕ
  data_upload_count : ℕ
  data_upload_size : ℕ
  sprite_system_count : ℕ
  symbol_count : ℕ
  sprite_count : ℕ
  shader_count : ℕ
  shader_compile_count : ℕ

/-- `Sampler` from the source: an immutable descriptor gathering
performance-related data for the monitor. -/
structure Sampler where
  label : String
  expr : StatsData → F64
  details : Option (StatsData → List String)
  warn_threshold : F64
  err_threshold : F64
  value_divisor : F64
  min_value : Option F64
  max_value : Option F64
  precision : ℕ

/-- `impl const Default for Sampler` from the source. -/
def Sampler.default : Sampler :=
  { label := "Unlabeled"
    expr := fun _ => .finite 0
    details := none
    warn_threshold := .finite 0
    err_threshold := .finite 0
    value_divisor := .finite 1
    min_value := none
    max_value := none
    precision := 0 }

/-- `Sampler::value` from the source: the raw expression result
(`as_()` is the identity cast `f64 → f64`) divided by `value_divisor`. -/
def Sampler.value (s : Sampler) (stats : StatsData) : F64 :=
  F64.div (s.expr stats) s.value_divisor

/-- `Sampler::check` from the source: classify the current value
against the sampler's own thresholds. -/
def Sampler.check (s : Sampler) (stats : StatsData) : ValueCheck :=
  ValueCheck.from_threshold s.warn_threshold s.err_threshold (s.value stats)

/-- `Sampler::min_size` from the source: minimum size the sampler
should occupy in the monitor view. -/
def Sampler.min_size (s : Sampler) : Option F64 :=
  some s.warn_threshold

/-- Modelled from the spec: the `display_bounds()` contract returns
`(min_display, max_display)` verbatim.  The source exposes the two
public fields `min_value` and `max_value` directly instead of wrapping
them in a method; this definition bundles those two fields as the spec
describes. -/
def Sampler.display_bounds (s : Sampler) : Option F64 × Option F64 :=
  (s.min_value, s.max_value)

/-- `const MB: f64 = (1024 * 1024) as f64`. -/
def MB : F64 := .finite (1024 * 1024)

/-- `const DEFAULT_SAMPLER: Sampler = Default::default()`. -/
def DEFAULT_SAMPLER : Sampler := Sampler.default

/-- `FPS` sampler constant from the source. -/
def FPS : Sampler :=
  { DEFAULT_SAMPLER with
    label := "Frames per second"
    expr := fun s => s.fps
    warn_threshold := .finite 55
    err_threshold := .finite 25
    precision := 2
    max_value := some (.finite 60) }

/-- `FRAME_TIME` sampler constant from the source. -/
def FRAME_TIME : Sampler :=
  { DEFAULT_SAMPLER with
    label := "Frame time (ms)"
    expr := fun s => s.frame_time
    warn_threshold := .finite (1000 / 55)
    err_threshold := .finite (1000 / 25)
    precision := 2 }

/-- `WASM_MEMORY_USAGE` sampler constant from the source. -/
def WASM_MEMORY_USAGE : Sampler :=
  { DEFAULT_SAMPLER with
    label := "WASM memory usage (Mb)"
    expr := fun s => .finite (s.wasm_memory_usage : ℚ)
    warn_threshold := .finite 50
    err_threshold := .finite 100
    precision := 2
    value_divisor := MB }

/-- `GPU_MEMORY_USAGE` sampler constant from the source. -/
def GPU_MEMORY_USAGE : Sampler :=
  { DEFAULT_SAMPLER with
    label := "GPU memory usage (Mb)"
    expr := fun s => .finite (s.gpu_memory_usage : ℚ)
    warn_threshold := .finite 100
    err_threshold := .finite 500
    precision := 2
    value_divisor := MB }

/-- `DRAW_CALL_COUNT` sampler constant from the source. -/
def DRAW_CALL_COUNT : Sampler :=
  { DEFAULT_SAMPLER with
    label := "Draw call count"
    expr := fun s => .finite (s.draw_calls.length : ℚ)
    details := some (fun s => s.draw_calls)
    warn_threshold := .finite 100
    err_threshold := .finite 500 }

/-- `BUFFER_COUNT` sampler constant from the source. -/
def BUFFER_COUNT : Sampler :=
  { DEFAULT_SAMPLER with
    label := "Buffer count"
    expr := fun s => .finite (s.buffer_count : ℚ)
    warn_threshold := .finite 100
    err_threshold := .finite 500 }

/-- `DATA_UPLOAD_COUNT` sampler constant from the source. -/
def DATA_UPLOAD_COUNT : Sampler :=
  { DEFAULT_SAMPLER with
    label := "Data upload count"
    expr := fun s => .finite (s.data_upload_count : ℚ)
    warn_threshold := .finite 100
    err_threshold := .finite 500 }

/-- `DATA_UPLOAD_SIZE` sampler constant from the source. -/
def DATA_UPLOAD_SIZE : Sampler :=
  { DEFAULT_SAMPLER with
    label := "Data upload size (Mb)"
    expr := fun s => .finite (s.data_upload_size : ℚ)
    warn_threshold := .finite 1
    err_threshold := .finite 10
    precision := 2
    value_divisor := MB }

/-- `SPRITE_SYSTEM_COUNT` sampler constant from the source. -/
def SPRITE_SYSTEM_COUNT : Sampler :=
  { DEFAULT_SAMPLER with
    label := "Sprite system count"
    expr := fun s => .finite (s.sprite_system_count : ℚ)
    warn_threshold := .finite 100
    err_threshold := .finite 500 }

/-- `SYMBOL_COUNT` sampler constant from the source. -/
def SYMBOL_COUNT : Sampler :=
  { DEFAULT_SAMPLER with
    label := "Symbol count"
    expr := fun s => .finite (s.symbol_count : ℚ)
    warn_threshold := .finite 100
    err_threshold := .finite 500 }

/-- `SPRITE_COUNT` sampler constant from the source. -/
def SPRITE_COUNT : Sampler :=
  { DEFAULT_SAMPLER with
    label := "Sprite count"
    expr := fun s => .finite (s.sprite_count : ℚ)
    warn_threshold := .finite 100000
    err_threshold := .finite 500000 }

/-- `SHADER_COUNT` sampler constant from the source. -/
def SHADER_COUNT : Sampler :=
  { DEFAULT_SAMPLER with
    label := "Shader count"
    expr := fun s => .finite (s.shader_count : ℚ)
    warn_threshold := .finite 100
    err_threshold := .finite 500 }

/-- `SHADER_COMPILE_COUNT` sampler constant from the source. -/
def SHADER_COMPILE_COUNT : Sampler :=
  { DEFAULT_SAMPLER with
    label := "Shader compile count"
    expr := fun s => .finite (s.shader_compile_count : ℚ)
    warn_threshold := .finite 10
    err_threshold := .finite 100 }

/-- The static configuration: the default descriptor together with
every predefined sampler constant of the source module. -/
def allSamplers : List Sampler :=
  [DEFAULT_SAMPLER, FPS, FRAME_TIME, WASM_MEMORY_USAGE, GPU_MEMORY_USAGE,
   DRAW_CALL_COUNT, BUFFER_COUNT, DATA_UPLOAD_COUNT, DATA_UPLOAD_SIZE,
   SPRITE_SYSTEM_COUNT, SYMBOL_COUNT, SPRITE_COUNT, SHADER_COUNT,
   SHADER_COMPILE_COUNT]

/-- Whether an embedded `f64` is finite and strictly positive. -/
def divisorPos : F64 → Bool
  | .finite q => decide (0 < q)
  | _ => false

/-- A concrete all-zero statistics snapshot, used to instantiate
universally quantified theorems. -/
def baseStats : StatsData :=
  { frame_time := .finite 0
    fps := .finite 0
    wasm_memory_usage := 0
    gpu_memory_usage := 0
    draw_calls := []
    buffer_count := 0
    data_upload_count := 0
    data_upload_size := 0
    sprite_system_count := 0
    symbol_count := 0
    sprite_count := 0
    shader_count := 0
    shader_compile_count := 0 }

/-- Claim C3: a sampler's display bounds are exactly the pair
`(min_value, max_value)` it was constructed with, unmodified, and the
result of `value` never depends on (so is never clamped to) those
bounds. -/
theorem display_bounds_verbatim_and_value_unclamped (lbl : String)
    (f : StatsData → F64) (det : Option (StatsData → List String))
    (w e d : F64) (mn mx mn2 mx2 : Option F64) (p : ℕ) (st : StatsData) :
    (Sampler.mk lbl f det w e d mn mx p).display_bounds = (mn, mx) ∧
    (Sampler.mk lbl f det w e d mn2 mx2 p).value st =
      (Sampler.mk lbl f det w e d mn mx p).value st :=
  ⟨rfl, rfl⟩

/-- Claim C5: for every constructed sampler and every snapshot, `value`
is the sampler's expression applied to the snapshot, divided by the
sampler's divisor. -/
theorem sampler_value_eq_scaled_extraction (lbl : String)
    (f : StatsData → F64) (det : Option (StatsData → List String))
    (w e d : F64) (mn mx : Option F64) (p : ℕ) (st : StatsData) :
    (Sampler.mk lbl f det w e d mn mx p).value st = F64.div (f st) d :=
  rfl

/-- Claim C6: the predefined `FPS` sampler (thresholds `55`/`25`,
divisor `1`) yields `value = 60` and `Correct` on a snapshot with
`fps = 60`, `Warning` at `fps = 40`, and `Error` at `fps = 10`. -/
theorem fps_sampler_scenario :
    FPS.value { baseStats with fps := .finite 60 } = .finite 60 ∧
    FPS.check { baseStats with fps := .finite 60 } = .Correct ∧
    FPS.check { baseStats with fps := .finite 40 } = .Warning ∧
    FPS.check { baseStats with fps := .finite 10 } = .Error := by
  refine ⟨?_, ?_, ?_, ?_⟩ <;>
    norm_num [FPS, DEFAULT_SAMPLER, Sampler.default, Sampler.value,
      Sampler.check, F64.div, from_threshold_finite]

/-- Claim C7: every sampler in the static configuration (the default
descriptor and the thirteen predefined metric constants) has a finite,
strictly positive scale divisor. -/
theorem all_divisors_positive :
    (allSamplers.all fun s => divisorPos s.value_divisor) = true := by
  norm_num [allSamplers, divisorPos, DEFAULT_SAMPLER, Sampler.default, MB,
    FPS, FRAME_TIME, WASM_MEMORY_USAGE, GPU_MEMORY_USAGE, DRAW_CALL_COUNT,
    BUFFER_COUNT, DATA_UPLOAD_COUNT, DATA_UPLOAD_SIZE, SPRITE_SYSTEM_COUNT,
    SYMBOL_COUNT, SPRITE_COUNT, SHADER_COUNT, SHADER_COMPILE_COUNT]

/-- Claim C8: `value` and `check` are pure functions of the snapshot
and of the sampler's configuration: two samplers agreeing on their
expression, thresholds and divisor produce identical results on equal
snapshots. -/
theorem value_check_pure (s t : Sampler) (a b : StatsData)
    (hf : s.expr = t.expr) (hw : s.warn_threshold = t.warn_threshold)
    (he : s.err_threshold = t.err_threshold)
    (hd : s.value_divisor = t.value_divisor) (hab : a = b) :
    s.value a = t.value b ∧ s.check a = t.check b := by
  subst hab
  simp [Sampler.value, Sampler.check, hf, hw, he, hd]

/-- Witness for C8: two evaluations of the `FPS` sampler on the
all-zero snapshot coincide. -/
theorem value_check_pure_witness :
    FPS.value baseStats = FPS.value baseStats ∧
    FPS.check baseStats = FPS.check baseStats :=
  value_check_pure FPS FPS baseStats baseStats rfl rfl rfl rfl rfl

/-- Claim C9: `min_size` returns `some warn_threshold` for every
sampler — not the display bounds — and is never `none`, even when both
display bounds are absent. -/
theorem min_size_is_warn_threshold (s : Sampler) :
    s.min_size = some s.warn_threshold ∧
    ({ s with min_value := none, max_value := none }).min_size =
      some s.warn_threshold ∧
    s.min_size ≠ none := by
  refine ⟨rfl, rfl, ?_⟩
  simp [Sampler.min_size]

/-- Claim C10: for the predefined `DRAW_CALL_COUNT` sampler, `value`
on any snapshot equals the number of strings produced by its details
extractor on the same snapshot. -/
theorem draw_call_count_value_matches_details (st : StatsData) :
    ∃ f, DRAW_CALL_COUNT.details = some f ∧
      DRAW_CALL_COUNT.value st = .finite ((f st).length : ℚ) := by
  refine ⟨fun s => s.draw_calls, rfl, ?_⟩
  simp [DRAW_CALL_COUNT, DEFAULT_SAMPLER, Sampler.default, Sampler.value,
    F64.div]
